import Mathlib

/-!
Shallow embedding of the BCI-tests repository's image-catalog module
(`bci_tester/data.py`) and of the verification-rule tables used by
`tests/test_base.py` (size limits, digest-set selection), together with
theorems about the catalog construction and the lookup rules.
-/

namespace BciTester

/-- A plain container descriptor: a remote image reference plus launch
attributes (mirrors `pytest_container.Container` as used in `data.py`:
`url`, `extra_launch_args`, `default_entry_point`). -/
structure Container where
  url : String
  extra_launch_args : List String
  default_entry_point : Bool
deriving Repr, DecidableEq

/-- A derived container descriptor: a build recipe over a base reference
(mirrors `pytest_container.DerivedContainer` as used in `data.py`). -/
structure DerivedContainer where
  base : String
  containerfile : String
  extra_launch_args : List String
  default_entry_point : Bool
deriving Repr, DecidableEq

/-- A catalog entry is either a plain remote reference or a build recipe
(the Python module types these as `Union[Container, DerivedContainer]`). -/
inductive ImageDescriptor where
  | container (c : Container)
  | derived (d : DerivedContainer)
deriving Repr, DecidableEq

def ImageDescriptor.extraLaunchArgs : ImageDescriptor → List String
  | .container c => c.extra_launch_args
  | .derived d => d.extra_launch_args

def ImageDescriptor.defaultEntryPoint : ImageDescriptor → Bool
  | .container c => c.default_entry_point
  | .derived d => d.default_entry_point

/-- The environment-derived configuration read at module import time:
`OS_VERSION`, `BCI_DEVEL_REPO` (None when unset), the detected host
architecture (`LOCALHOST.system_info.arch`) and whether the docker
runtime was selected. -/
structure Config where
  os_version : String
  bci_devel_repo : Option String
  arch : String
  docker_selected : Bool
deriving Repr

def DEFAULT_REGISTRY : String := "registry.suse.de"

/-- Python `str.split(".")` over the character list: splits at every dot;
the empty string yields one empty component. -/
def splitDots : List Char → List (List Char)
  | [] => [[]]
  | c :: cs =>
      let rest := splitDots cs
      if c = '.' then [] :: rest
      else
        match rest with
        | [] => [[c]]
        | r :: rs => (c :: r) :: rs

/-- One decimal digit, or `none` for a non-digit character. -/
def digitVal (c : Char) : Option Nat :=
  if c.isDigit then some (c.toNat - 48) else none

/-- Accumulating decimal parse of a digit string. -/
def parseNatAux : List Char → Nat → Option Nat
  | [], acc => some acc
  | c :: cs, acc =>
      match digitVal c with
      | some d => parseNatAux cs (acc * 10 + d)
      | none => none

/-- Python `int(s)` on the version components occurring here: a non-empty
all-digit string parses, anything else raises `ValueError` (`none`). -/
def pyInt : List Char → Option Nat
  | [] => none
  | c :: cs => parseNatAux (c :: cs) 0

/-- Embeds line 19 of `data.py`:
`OS_MAJOR_VERSION, OS_SP_VERSION = (int(ver) for ver in OS_VERSION.split("."))`.
Returns `none` when `int()` raises `ValueError` on a component or when the
split does not have exactly two components (unpack error). -/
def parseOsVersion (v : String) : Option (Nat × Nat) :=
  match (splitDots v.toList).mapM pyInt with
  | some [major, sp] => some (major, sp)
  | _ => none

/-- The two ways importing `bci_tester.data` can fail: a `ValueError`
while parsing `OS_VERSION` (line 19), or the `assert OS_MAJOR_VERSION == 15`
failing (lines 34-36). -/
inductive DataInitError where
  | versionParseError
  | unsupportedMajorVersion
deriving Repr, DecidableEq

/-- `BASE_URL` of `data.py` line 39, from the parsed major/SP version. -/
def BASE_URL (major sp : Nat) : String :=
  DEFAULT_REGISTRY ++ "/suse/sle-" ++ toString major ++ "-sp" ++ toString sp
    ++ "/update/cr/totest/images"

/-- `BASE_CONTAINER` before any repository rewriting (line 42). -/
def plainBASE_CONTAINER (v : String) : Container :=
  { url := DEFAULT_REGISTRY ++ "/suse/sle-15-sp3/update/cr/totest/images/suse/sle15:" ++ v
    extra_launch_args := []
    default_entry_point := false }

/-- `MINIMAL_CONTAINER` (line 45); never rewritten. -/
def mkMINIMAL_CONTAINER (v : String) : Container :=
  { url := DEFAULT_REGISTRY ++ "/suse/sle-15-sp3/update/cr/totest/images/bci/minimal:" ++ v
    extra_launch_args := []
    default_entry_point := false }

/-- `MICRO_CONTAINER` (line 48); never rewritten. -/
def mkMICRO_CONTAINER (v : String) : Container :=
  { url := DEFAULT_REGISTRY ++ "/suse/sle-15-sp3/update/cr/totest/images/bci/micro:" ++ v
    extra_launch_args := []
    default_entry_point := false }

/-- A language-runtime container under the fixed `sle-15-sp3` path with the
given repository tail (e.g. `bci/golang:1.16`), lines 52-77. -/
def plainSp3Container (tail : String) : Container :=
  { url := DEFAULT_REGISTRY ++ "/suse/sle-15-sp3/update/cr/totest/images/" ++ tail
    extra_launch_args := []
    default_entry_point := false }

/-- A .NET container under the version-derived `BASE_URL` (lines 79-107). -/
def plainDotnetContainer (major sp : Nat) (tail : String) : Container :=
  { url := BASE_URL major sp ++ "/" ++ tail
    extra_launch_args := []
    default_entry_point := false }

/-- `INIT_CONTAINER` before rewriting (lines 109-125): extra launch
arguments only when the docker runtime is selected; default entry point. -/
def plainINIT_CONTAINER (docker : Bool) : Container :=
  { url := DEFAULT_REGISTRY ++ "/suse/sle-15-sp3/update/cr/totest/images/bci/init:15.3"
    extra_launch_args :=
      if docker then
        ["--privileged", "--tmpfs", "/tmp", "--tmpfs", "/run", "-v",
         "/sys/fs/cgroup:/sys/fs/cgroup:ro,z", "-e", "container=docker"]
      else []
    default_entry_point := true }

/-- `REPLACE_REPO_CONTAINERFILE` (line 144): the single `RUN sed` instruction
substituting the `baseurl` line of `/etc/zypp/repos.d/SLE_BCI.repo`. -/
def replaceRepoContainerfile (repo : String) : String :=
  "RUN sed -i \x27s|baseurl.*|baseurl=" ++ repo
    ++ "|\x27 /etc/zypp/repos.d/SLE_BCI.repo"

/-- The rewriting applied to each repository-bearing descriptor when
`BCI_DEVEL_REPO` is set (lines 146-193): a `DerivedContainer` whose base is
the original url, whose containerfile is `REPLACE_REPO_CONTAINERFILE`, and
whose remaining attributes are copied from the original
(`**\x7bk: v for (k, v) in cont.__dict__.items() if k != "url"\x7d`). -/
def replaceRepo (repo : String) (c : Container) : ImageDescriptor :=
  .derived
    { base := c.url
      containerfile := replaceRepoContainerfile repo
      extra_launch_args := c.extra_launch_args
      default_entry_point := c.default_entry_point }

/-- The default `BCI_DEVEL_REPO` value when the environment variable is
unset (line 142), parametrized by the detected host architecture. -/
def defaultBciDevelRepo (arch : String) : String :=
  "https://updates.suse.com/SUSE/Products/SLE-BCI/15-SP3/" ++ arch ++ "/product/"

/-- The part of the `REPOCLOSURE_CONTAINER` containerfile (lines 198-204)
before the `BCI_DEVEL_REPO` value is concatenated in; it ends with the
`baseurl=` key-value opening of the `SLE_BCI` repository entry (line 204 of
`data.py` ends in `baseurl=`). -/
def repoclosureHead : String :=
  "RUN dnf -y install \x27dnf-command(repoclosure)\x27\nRUN rm -f /etc/yum.repos.d/*repo\nRUN echo $\x27[SLE_BCI] \\n\\\nenabled=1 \\n\\\nname=\"SLE BCI\" \\n\\\nautorefresh=0 \\n\\\nbaseurl="

/-- The part of the `REPOCLOSURE_CONTAINER` containerfile (lines 206-208)
after the `BCI_DEVEL_REPO` value. -/
def repoclosureTail : String :=
  " \\n\\\npriority=100\x27 > /etc/yum.repos.d/SLE_BCI.repo\n"

/-- The (boolean condition of the) `DOTNET_ARCH_SKIP_MARK` pytest mark
(lines 29-32): active exactly when the detected architecture is not
x86_64. -/
def DOTNET_ARCH_SKIP_MARK_active (arch : String) : Bool :=
  arch != "x86_64"

/-- The module-level state of `bci_tester/data.py` after a successful
import: every named descriptor, the effective `BCI_DEVEL_REPO` value, the
repoclosure helper and the groups. -/
structure Catalog where
  BASE_CONTAINER : ImageDescriptor
  MINIMAL_CONTAINER : Container
  MICRO_CONTAINER : Container
  GO_1_16_CONTAINER : ImageDescriptor
  GO_1_17_CONTAINER : ImageDescriptor
  OPENJDK_11_CONTAINER : ImageDescriptor
  OPENJDK_DEVEL_11_CONTAINER : ImageDescriptor
  NODEJS_12_CONTAINER : ImageDescriptor
  NODEJS_14_CONTAINER : ImageDescriptor
  PYTHON36_CONTAINER : ImageDescriptor
  PYTHON39_CONTAINER : ImageDescriptor
  DOTNET_SDK_3_1_CONTAINER : ImageDescriptor
  DOTNET_SDK_5_0_CONTAINER : ImageDescriptor
  DOTNET_SDK_6_0_CONTAINER : ImageDescriptor
  DOTNET_ASPNET_3_1_CONTAINER : ImageDescriptor
  DOTNET_ASPNET_5_0_CONTAINER : ImageDescriptor
  DOTNET_ASPNET_6_0_CONTAINER : ImageDescriptor
  DOTNET_RUNTIME_3_1_CONTAINER : ImageDescriptor
  DOTNET_RUNTIME_5_0_CONTAINER : ImageDescriptor
  DOTNET_RUNTIME_6_0_CONTAINER : ImageDescriptor
  INIT_CONTAINER : ImageDescriptor
  BCI_DEVEL_REPO : String
  REPOCLOSURE_CONTAINER : DerivedContainer
  DOTNET_CONTAINERS : List ImageDescriptor
  CONTAINERS_WITH_ZYPPER : List ImageDescriptor
  CONTAINERS_WITHOUT_ZYPPER : List ImageDescriptor
  ALL_CONTAINERS : List ImageDescriptor
deriving Repr

/-- The catalog body, executed once the version assertion has passed.
When `bci_devel_repo` is set, exactly the nineteen repository-bearing
descriptors are rewritten via `replaceRepo`; `MINIMAL_CONTAINER` and
`MICRO_CONTAINER` are left as plain references (lines 140-243). -/
def mkCatalog (cfg : Config) (major sp : Nat) : Catalog :=
  let repo : String :=
    match cfg.bci_devel_repo with
    | none => defaultBciDevelRepo cfg.arch
    | some r => r
  let wrap : Container → ImageDescriptor := fun c =>
    match cfg.bci_devel_repo with
    | none => .container c
    | some r => replaceRepo r c
  let base := wrap (plainBASE_CONTAINER cfg.os_version)
  let go16 := wrap (plainSp3Container "bci/golang:1.16")
  let go17 := wrap (plainSp3Container "bci/golang:1.17")
  let jdk11 := wrap (plainSp3Container "bci/openjdk:11")
  let jdkd11 := wrap (plainSp3Container "bci/openjdk-devel:11")
  let njs12 := wrap (plainSp3Container "bci/nodejs:12")
  let njs14 := wrap (plainSp3Container "bci/nodejs:14")
  let py36 := wrap (plainSp3Container "bci/python:3.6")
  let py39 := wrap (plainSp3Container "bci/python:3.9")
  let sdk31 := wrap (plainDotnetContainer major sp "bci/dotnet-sdk:3.1")
  let sdk50 := wrap (plainDotnetContainer major sp "bci/dotnet-sdk:5.0")
  let sdk60 := wrap (plainDotnetContainer major sp "bci/dotnet-sdk:6.0")
  let asp31 := wrap (plainDotnetContainer major sp "bci/dotnet-aspnet:3.1")
  let asp50 := wrap (plainDotnetContainer major sp "bci/dotnet-aspnet:5.0")
  let asp60 := wrap (plainDotnetContainer major sp "bci/dotnet-aspnet:6.0")
  let rt31 := wrap (plainDotnetContainer major sp "bci/dotnet-runtime:3.1")
  let rt50 := wrap (plainDotnetContainer major sp "bci/dotnet-runtime:5.0")
  let rt60 := wrap (plainDotnetContainer major sp "bci/dotnet-runtime:6.0")
  let init := wrap (plainINIT_CONTAINER cfg.docker_selected)
  let dotnets : List ImageDescriptor :=
    [sdk31, sdk50, sdk60, asp31, asp50, asp60, rt31, rt50, rt60]
  let withZypper : List ImageDescriptor :=
    [base, go16, go17, jdk11, jdkd11, njs12, njs14, py36, py39, init]
      ++ (if cfg.arch = "x86_64" then dotnets else [])
  let withoutZypper : List ImageDescriptor :=
    [.container (mkMINIMAL_CONTAINER cfg.os_version),
     .container (mkMICRO_CONTAINER cfg.os_version)]
  { BASE_CONTAINER := base
    MINIMAL_CONTAINER := mkMINIMAL_CONTAINER cfg.os_version
    MICRO_CONTAINER := mkMICRO_CONTAINER cfg.os_version
    GO_1_16_CONTAINER := go16
    GO_1_17_CONTAINER := go17
    OPENJDK_11_CONTAINER := jdk11
    OPENJDK_DEVEL_11_CONTAINER := jdkd11
    NODEJS_12_CONTAINER := njs12
    NODEJS_14_CONTAINER := njs14
    PYTHON36_CONTAINER := py36
    PYTHON39_CONTAINER := py39
    DOTNET_SDK_3_1_CONTAINER := sdk31
    DOTNET_SDK_5_0_CONTAINER := sdk50
    DOTNET_SDK_6_0_CONTAINER := sdk60
    DOTNET_ASPNET_3_1_CONTAINER := asp31
    DOTNET_ASPNET_5_0_CONTAINER := asp50
    DOTNET_ASPNET_6_0_CONTAINER := asp60
    DOTNET_RUNTIME_3_1_CONTAINER := rt31
    DOTNET_RUNTIME_5_0_CONTAINER := rt50
    DOTNET_RUNTIME_6_0_CONTAINER := rt60
    INIT_CONTAINER := init
    BCI_DEVEL_REPO := repo
    REPOCLOSURE_CONTAINER :=
      { base := "registry.fedoraproject.org/fedora:latest"
        containerfile := repoclosureHead ++ repo ++ repoclosureTail
        extra_launch_args := []
        default_entry_point := false }
    DOTNET_CONTAINERS := dotnets
    CONTAINERS_WITH_ZYPPER := withZypper
    CONTAINERS_WITHOUT_ZYPPER := withoutZypper
    ALL_CONTAINERS := withZypper ++ withoutZypper }

/-- Importing `bci_tester.data` under a given configuration: parse
`OS_VERSION` (line 19), assert the major version is 15 (lines 34-36), then
build the module-level catalog. -/
def buildCatalog (cfg : Config) : Except DataInitError Catalog :=
  match parseOsVersion cfg.os_version with
  | none => .error .versionParseError
  | some (major, sp) =>
      if major = 15 then .ok (mkCatalog cfg major sp)
      else .error .unsupportedMajorVersion

/-- A Python `dict[str, int]` lookup `d[k]`: `some` on a present key,
`none` for the `KeyError` case. -/
def dictLookup : List (String × Nat) → String → Option Nat
  | [], _ => none
  | (k, n) :: rest, key => if key = k then some n else dictLookup rest key

/-- The `base_container_max_size` dictionary chosen in `test_base_size`
(`tests/test_base.py` lines 73-100) as a function of the `OS_VERSION`
bucket and of whether the container under test is a FIPS base container. -/
def base_container_max_size (os_version : String) (is_fips_ctr : Bool) :
    List (String × Nat) :=
  if os_version = "basalt" ∨ os_version = "tumbleweed" ∨ is_fips_ctr = true then
    [("x86_64", 132), ("aarch64", 158), ("ppc64le", 179), ("s390x", 136)]
  else if os_version = "15.6" then
    [("x86_64", 139), ("aarch64", 160), ("ppc64le", 184), ("s390x", 141)]
  else if os_version = "15.4" ∨ os_version = "15.5" then
    [("x86_64", 124), ("aarch64", 143), ("ppc64le", 165), ("s390x", 127)]
  else
    [("x86_64", 120), ("aarch64", 140), ("ppc64le", 160), ("s390x", 125)]

/-- The size-limit lookup performed at `tests/test_base.py` line 104:
`base_container_max_size[LOCALHOST.system_info.arch]`. -/
def getSizeLimit (os_version : String) (is_fips_ctr : Bool) (arch : String) :
    Option Nat :=
  dictLookup (base_container_max_size os_version is_fips_ctr) arch

/-- The four architectures every size-limit table has an entry for. -/
def sizeLimitArchs : List String := ["x86_64", "aarch64", "ppc64le", "s390x"]

/-- Modelled from the spec: `bci_tester.fips.FIPS_DIGESTS` is imported by
`tests/test_base.py` but `bci_tester/fips.py` is not under src/. The spec
describes it as the FIPS-approved subset of the digest list, containing
only FIPS-approved (SHA-family) names. -/
def FIPS_DIGESTS : List String := ["sha1", "sha224", "sha256", "sha384", "sha512"]

/-- Modelled from the spec: `bci_tester.fips.ALL_DIGESTS` is imported by
`tests/test_base.py` but `bci_tester/fips.py` is not under src/. The spec
describes it as the full ordered digest list, of which `FIPS_DIGESTS` is a
strict subset; it does not contain the folklore name `gost`, which
`test_all_openssl_hashes_known` appends separately. -/
def ALL_DIGESTS : List String := FIPS_DIGESTS ++ ["md5", "sm3"]

/-- Modelled from the spec: a digest name is FIPS-approved when it is one
of the SHA-family names (its name starts with `sha`). -/
def fipsApproved (d : String) : Bool :=
  match d.toList with
  | 's' :: 'h' :: 'a' :: _ => true
  | _ => false

/-- The OS_VERSION buckets that ship the newer cryptography library major
version (openssl 3), as listed in `tests/test_base.py` lines 169 and 175. -/
def openssl3Buckets : List String := ["basalt", "tumbleweed", "15.6"]

/-- The `expected_digest_list` computation of `test_all_openssl_hashes_known`
(`tests/test_base.py` lines 166-176): start from `ALL_DIGESTS`; narrow to
`FIPS_DIGESTS` when the bucket is in `openssl3Buckets` and either host FIPS
mode or target FIPS enforcement is active; append `"gost"` when the bucket
is NOT in `openssl3Buckets`. -/
def expected_digest_list (os_version : String) (host_fips target_fips : Bool) :
    List String :=
  let l :=
    if os_version ∈ openssl3Buckets ∧ (host_fips = true ∨ target_fips = true) then
      FIPS_DIGESTS
    else ALL_DIGESTS
  if os_version ∉ openssl3Buckets then l ++ ["gost"] else l

/-! ## Theorems -/

/-- C1: when the repository-override environment variable `BCI_DEVEL_REPO` is
set to `r`, every repository-bearing descriptor (`BASE_CONTAINER` and the Go,
OpenJDK, Node.js, Python, .NET and init containers) becomes a
`DerivedContainer` whose base is the original remote URL and whose single
instruction is the `sed` line substituting the `baseurl` of the `SLE_BCI`
repository file with `r`, while `MINIMAL_CONTAINER` and `MICRO_CONTAINER`
(no package manager) remain plain remote references. -/
theorem bci_devel_repo_override_rewrites (r arch : String) (d : Bool) :
    ∃ cat, buildCatalog ⟨"15.3", some r, arch, d⟩ = .ok cat ∧
      cat.BASE_CONTAINER =
        .derived ⟨(plainBASE_CONTAINER "15.3").url, replaceRepoContainerfile r, [], false⟩ ∧
      cat.GO_1_16_CONTAINER =
        .derived ⟨(plainSp3Container "bci/golang:1.16").url, replaceRepoContainerfile r, [], false⟩ ∧
      cat.GO_1_17_CONTAINER =
        .derived ⟨(plainSp3Container "bci/golang:1.17").url, replaceRepoContainerfile r, [], false⟩ ∧
      cat.OPENJDK_11_CONTAINER =
        .derived ⟨(plainSp3Container "bci/openjdk:11").url, replaceRepoContainerfile r, [], false⟩ ∧
      cat.OPENJDK_DEVEL_11_CONTAINER =
        .derived ⟨(plainSp3Container "bci/openjdk-devel:11").url, replaceRepoContainerfile r, [], false⟩ ∧
      cat.NODEJS_12_CONTAINER =
        .derived ⟨(plainSp3Container "bci/nodejs:12").url, replaceRepoContainerfile r, [], false⟩ ∧
      cat.NODEJS_14_CONTAINER =
        .derived ⟨(plainSp3Container "bci/nodejs:14").url, replaceRepoContainerfile r, [], false⟩ ∧
      cat.PYTHON36_CONTAINER =
        .derived ⟨(plainSp3Container "bci/python:3.6").url, replaceRepoContainerfile r, [], false⟩ ∧
      cat.PYTHON39_CONTAINER =
        .derived ⟨(plainSp3Container "bci/python:3.9").url, replaceRepoContainerfile r, [], false⟩ ∧
      cat.DOTNET_SDK_3_1_CONTAINER =
        .derived ⟨(plainDotnetContainer 15 3 "bci/dotnet-sdk:3.1").url, replaceRepoContainerfile r, [], false⟩ ∧
      cat.DOTNET_SDK_5_0_CONTAINER =
        .derived ⟨(plainDotnetContainer 15 3 "bci/dotnet-sdk:5.0").url, replaceRepoContainerfile r, [], false⟩ ∧
      cat.DOTNET_SDK_6_0_CONTAINER =
        .derived ⟨(plainDotnetContainer 15 3 "bci/dotnet-sdk:6.0").url, replaceRepoContainerfile r, [], false⟩ ∧
      cat.DOTNET_ASPNET_3_1_CONTAINER =
        .derived ⟨(plainDotnetContainer 15 3 "bci/dotnet-aspnet:3.1").url, replaceRepoContainerfile r, [], false⟩ ∧
      cat.DOTNET_ASPNET_5_0_CONTAINER =
        .derived ⟨(plainDotnetContainer 15 3 "bci/dotnet-aspnet:5.0").url, replaceRepoContainerfile r, [], false⟩ ∧
      cat.DOTNET_ASPNET_6_0_CONTAINER =
        .derived ⟨(plainDotnetContainer 15 3 "bci/dotnet-aspnet:6.0").url, replaceRepoContainerfile r, [], false⟩ ∧
      cat.DOTNET_RUNTIME_3_1_CONTAINER =
        .derived ⟨(plainDotnetContainer 15 3 "bci/dotnet-runtime:3.1").url, replaceRepoContainerfile r, [], false⟩ ∧
      cat.DOTNET_RUNTIME_5_0_CONTAINER =
        .derived ⟨(plainDotnetContainer 15 3 "bci/dotnet-runtime:5.0").url, replaceRepoContainerfile r, [], false⟩ ∧
      cat.DOTNET_RUNTIME_6_0_CONTAINER =
        .derived ⟨(plainDotnetContainer 15 3 "bci/dotnet-runtime:6.0").url, replaceRepoContainerfile r, [], false⟩ ∧
      cat.INIT_CONTAINER =
        .derived ⟨(plainINIT_CONTAINER d).url, replaceRepoContainerfile r,
          (plainINIT_CONTAINER d).extra_launch_args, true⟩ ∧
      cat.MINIMAL_CONTAINER = mkMINIMAL_CONTAINER "15.3" ∧
      cat.MICRO_CONTAINER = mkMICRO_CONTAINER "15.3" :=
  ⟨_, rfl, rfl, rfl, rfl, rfl, rfl, rfl, rfl, rfl, rfl, rfl, rfl, rfl, rfl,
   rfl, rfl, rfl, rfl, rfl, rfl, rfl, rfl⟩

/-- C2: repository-override rewriting changes only the remote-URL /
build-recipe pair: for every repository-bearing descriptor, the remaining
attributes (`extra_launch_args`, `default_entry_point`) are identical
between the catalog built with the override (`some r`) and the catalog
built without it (`none`), for every OS version, SP version, override
value, architecture and runtime choice. -/
theorem repo_override_preserves_other_attributes
    (v : String) (sp : Nat) (r arch : String) (d : Bool) :
    (mkCatalog ⟨v, some r, arch, d⟩ 15 sp).BASE_CONTAINER.extraLaunchArgs = (mkCatalog ⟨v, none, arch, d⟩ 15 sp).BASE_CONTAINER.extraLaunchArgs ∧
    (mkCatalog ⟨v, some r, arch, d⟩ 15 sp).BASE_CONTAINER.defaultEntryPoint = (mkCatalog ⟨v, none, arch, d⟩ 15 sp).BASE_CONTAINER.defaultEntryPoint ∧
    (mkCatalog ⟨v, some r, arch, d⟩ 15 sp).GO_1_16_CONTAINER.extraLaunchArgs = (mkCatalog ⟨v, none, arch, d⟩ 15 sp).GO_1_16_CONTAINER.extraLaunchArgs ∧
    (mkCatalog ⟨v, some r, arch, d⟩ 15 sp).GO_1_16_CONTAINER.defaultEntryPoint = (mkCatalog ⟨v, none, arch, d⟩ 15 sp).GO_1_16_CONTAINER.defaultEntryPoint ∧
    (mkCatalog ⟨v, some r, arch, d⟩ 15 sp).GO_1_17_CONTAINER.extraLaunchArgs = (mkCatalog ⟨v, none, arch, d⟩ 15 sp).GO_1_17_CONTAINER.extraLaunchArgs ∧
    (mkCatalog ⟨v, some r, arch, d⟩ 15 sp).GO_1_17_CONTAINER.defaultEntryPoint = (mkCatalog ⟨v, none, arch, d⟩ 15 sp).GO_1_17_CONTAINER.defaultEntryPoint ∧
    (mkCatalog ⟨v, some r, arch, d⟩ 15 sp).OPENJDK_11_CONTAINER.extraLaunchArgs = (mkCatalog ⟨v, none, arch, d⟩ 15 sp).OPENJDK_11_CONTAINER.extraLaunchArgs ∧
    (mkCatalog ⟨v, some r, arch, d⟩ 15 sp).OPENJDK_11_CONTAINER.defaultEntryPoint = (mkCatalog ⟨v, none, arch, d⟩ 15 sp).OPENJDK_11_CONTAINER.defaultEntryPoint ∧
    (mkCatalog ⟨v, some r, arch, d⟩ 15 sp).OPENJDK_DEVEL_11_CONTAINER.extraLaunchArgs = (mkCatalog ⟨v, none, arch, d⟩ 15 sp).OPENJDK_DEVEL_11_CONTAINER.extraLaunchArgs ∧
    (mkCatalog ⟨v, some r, arch, d⟩ 15 sp).OPENJDK_DEVEL_11_CONTAINER.defaultEntryPoint = (mkCatalog ⟨v, none, arch, d⟩ 15 sp).OPENJDK_DEVEL_11_CONTAINER.defaultEntryPoint ∧
    (mkCatalog ⟨v, some r, arch, d⟩ 15 sp).NODEJS_12_CONTAINER.extraLaunchArgs = (mkCatalog ⟨v, none, arch, d⟩ 15 sp).NODEJS_12_CONTAINER.extraLaunchArgs ∧
    (mkCatalog ⟨v, some r, arch, d⟩ 15 sp).NODEJS_12_CONTAINER.defaultEntryPoint = (mkCatalog ⟨v, none, arch, d⟩ 15 sp).NODEJS_12_CONTAINER.defaultEntryPoint ∧
    (mkCatalog ⟨v, some r, arch, d⟩ 15 sp).NODEJS_14_CONTAINER.extraLaunchArgs = (mkCatalog ⟨v, none, arch, d⟩ 15 sp).NODEJS_14_CONTAINER.extraLaunchArgs ∧
    (mkCatalog ⟨v, some r, arch, d⟩ 15 sp).NODEJS_14_CONTAINER.defaultEntryPoint = (mkCatalog ⟨v, none, arch, d⟩ 15 sp).NODEJS_14_CONTAINER.defaultEntryPoint ∧
    (mkCatalog ⟨v, some r, arch, d⟩ 15 sp).PYTHON36_CONTAINER.extraLaunchArgs = (mkCatalog ⟨v, none, arch, d⟩ 15 sp).PYTHON36_CONTAINER.extraLaunchArgs ∧
    (mkCatalog ⟨v, some r, arch, d⟩ 15 sp).PYTHON36_CONTAINER.defaultEntryPoint = (mkCatalog ⟨v, none, arch, d⟩ 15 sp).PYTHON36_CONTAINER.defaultEntryPoint ∧
    (mkCatalog ⟨v, some r, arch, d⟩ 15 sp).PYTHON39_CONTAINER.extraLaunchArgs = (mkCatalog ⟨v, none, arch, d⟩ 15 sp).PYTHON39_CONTAINER.extraLaunchArgs ∧
    (mkCatalog ⟨v, some r, arch, d⟩ 15 sp).PYTHON39_CONTAINER.defaultEntryPoint = (mkCatalog ⟨v, none, arch, d⟩ 15 sp).PYTHON39_CONTAINER.defaultEntryPoint ∧
    (mkCatalog ⟨v, some r, arch, d⟩ 15 sp).DOTNET_SDK_3_1_CONTAINER.extraLaunchArgs = (mkCatalog ⟨v, none, arch, d⟩ 15 sp).DOTNET_SDK_3_1_CONTAINER.extraLaunchArgs ∧
    (mkCatalog ⟨v, some r, arch, d⟩ 15 sp).DOTNET_SDK_3_1_CONTAINER.defaultEntryPoint = (mkCatalog ⟨v, none, arch, d⟩ 15 sp).DOTNET_SDK_3_1_CONTAINER.defaultEntryPoint ∧
    (mkCatalog ⟨v, some r, arch, d⟩ 15 sp).DOTNET_SDK_5_0_CONTAINER.extraLaunchArgs = (mkCatalog ⟨v, none, arch, d⟩ 15 sp).DOTNET_SDK_5_0_CONTAINER.extraLaunchArgs ∧
    (mkCatalog ⟨v, some r, arch, d⟩ 15 sp).DOTNET_SDK_5_0_CONTAINER.defaultEntryPoint = (mkCatalog ⟨v, none, arch, d⟩ 15 sp).DOTNET_SDK_5_0_CONTAINER.defaultEntryPoint ∧
    (mkCatalog ⟨v, some r, arch, d⟩ 15 sp).DOTNET_SDK_6_0_CONTAINER.extraLaunchArgs = (mkCatalog ⟨v, none, arch, d⟩ 15 sp).DOTNET_SDK_6_0_CONTAINER.extraLaunchArgs ∧
    (mkCatalog ⟨v, some r, arch, d⟩ 15 sp).DOTNET_SDK_6_0_CONTAINER.defaultEntryPoint = (mkCatalog ⟨v, none, arch, d⟩ 15 sp).DOTNET_SDK_6_0_CONTAINER.defaultEntryPoint ∧
    (mkCatalog ⟨v, some r, arch, d⟩ 15 sp).DOTNET_ASPNET_3_1_CONTAINER.extraLaunchArgs = (mkCatalog ⟨v, none, arch, d⟩ 15 sp).DOTNET_ASPNET_3_1_CONTAINER.extraLaunchArgs ∧
    (mkCatalog ⟨v, some r, arch, d⟩ 15 sp).DOTNET_ASPNET_3_1_CONTAINER.defaultEntryPoint = (mkCatalog ⟨v, none, arch, d⟩ 15 sp).DOTNET_ASPNET_3_1_CONTAINER.defaultEntryPoint ∧
    (mkCatalog ⟨v, some r, arch, d⟩ 15 sp).DOTNET_ASPNET_5_0_CONTAINER.extraLaunchArgs = (mkCatalog ⟨v, none, arch, d⟩ 15 sp).DOTNET_ASPNET_5_0_CONTAINER.extraLaunchArgs ∧
    (mkCatalog ⟨v, some r, arch, d⟩ 15 sp).DOTNET_ASPNET_5_0_CONTAINER.defaultEntryPoint = (mkCatalog ⟨v, none, arch, d⟩ 15 sp).DOTNET_ASPNET_5_0_CONTAINER.defaultEntryPoint ∧
    (mkCatalog ⟨v, some r, arch, d⟩ 15 sp).DOTNET_ASPNET_6_0_CONTAINER.extraLaunchArgs = (mkCatalog ⟨v, none, arch, d⟩ 15 sp).DOTNET_ASPNET_6_0_CONTAINER.extraLaunchArgs ∧
    (mkCatalog ⟨v, some r, arch, d⟩ 15 sp).DOTNET_ASPNET_6_0_CONTAINER.defaultEntryPoint = (mkCatalog ⟨v, none, arch, d⟩ 15 sp).DOTNET_ASPNET_6_0_CONTAINER.defaultEntryPoint ∧
    (mkCatalog ⟨v, some r, arch, d⟩ 15 sp).DOTNET_RUNTIME_3_1_CONTAINER.extraLaunchArgs = (mkCatalog ⟨v, none, arch, d⟩ 15 sp).DOTNET_RUNTIME_3_1_CONTAINER.extraLaunchArgs ∧
    (mkCatalog ⟨v, some r, arch, d⟩ 15 sp).DOTNET_RUNTIME_3_1_CONTAINER.defaultEntryPoint = (mkCatalog ⟨v, none, arch, d⟩ 15 sp).DOTNET_RUNTIME_3_1_CONTAINER.defaultEntryPoint ∧
    (mkCatalog ⟨v, some r, arch, d⟩ 15 sp).DOTNET_RUNTIME_5_0_CONTAINER.extraLaunchArgs = (mkCatalog ⟨v, none, arch, d⟩ 15 sp).DOTNET_RUNTIME_5_0_CONTAINER.extraLaunchArgs ∧
    (mkCatalog ⟨v, some r, arch, d⟩ 15 sp).DOTNET_RUNTIME_5_0_CONTAINER.defaultEntryPoint = (mkCatalog ⟨v, none, arch, d⟩ 15 sp).DOTNET_RUNTIME_5_0_CONTAINER.defaultEntryPoint ∧
    (mkCatalog ⟨v, some r, arch, d⟩ 15 sp).DOTNET_RUNTIME_6_0_CONTAINER.extraLaunchArgs = (mkCatalog ⟨v, none, arch, d⟩ 15 sp).DOTNET_RUNTIME_6_0_CONTAINER.extraLaunchArgs ∧
    (mkCatalog ⟨v, some r, arch, d⟩ 15 sp).DOTNET_RUNTIME_6_0_CONTAINER.defaultEntryPoint = (mkCatalog ⟨v, none, arch, d⟩ 15 sp).DOTNET_RUNTIME_6_0_CONTAINER.defaultEntryPoint ∧
    (mkCatalog ⟨v, some r, arch, d⟩ 15 sp).INIT_CONTAINER.extraLaunchArgs = (mkCatalog ⟨v, none, arch, d⟩ 15 sp).INIT_CONTAINER.extraLaunchArgs ∧
    (mkCatalog ⟨v, some r, arch, d⟩ 15 sp).INIT_CONTAINER.defaultEntryPoint = (mkCatalog ⟨v, none, arch, d⟩ 15 sp).INIT_CONTAINER.defaultEntryPoint :=
  ⟨rfl, rfl, rfl, rfl, rfl, rfl, rfl, rfl, rfl, rfl, rfl, rfl, rfl, rfl, rfl, rfl, rfl, rfl, rfl, rfl, rfl, rfl, rfl, rfl, rfl, rfl, rfl, rfl, rfl, rfl, rfl, rfl, rfl, rfl, rfl, rfl, rfl, rfl⟩

/-- C6: an `OS_VERSION` with a major version other than 15, for example
`"16.0"`, makes catalog construction fail with the configuration assertion
(`assert OS_MAJOR_VERSION == 15`) instead of producing a catalog. -/
theorem unsupported_major_version_fails (repo : Option String) (arch : String) (d : Bool) :
    buildCatalog ⟨"16.0", repo, arch, d⟩ = .error .unsupportedMajorVersion := rfl

/-- C7: on a rolling-release codename such as `"tumbleweed"` (not of the
form MAJOR.MINOR), the version-parsing step of catalog construction fails
(a `ValueError` from `int("tumbleweed")` at `data.py` line 19), so the
module cannot be imported at all — contradicting the repository's own
tests, which branch on codename `OS_VERSION` values. -/
theorem codename_os_version_parse_fails (repo : Option String) (arch : String) (d : Bool) :
    buildCatalog ⟨"tumbleweed", repo, arch, d⟩ = .error .versionParseError := rfl

/-- C10: when `BCI_DEVEL_REPO` is unset, it defaults to the
architecture-dependent URL
`https://updates.suse.com/SUSE/Products/SLE-BCI/15-SP3/\x7barch\x7d/product/` and no
descriptor is rewritten (all nineteen repository-bearing descriptors stay
plain remote references); in either case (default or override) the
repoclosure helper container's build recipe embeds the active
`BCI_DEVEL_REPO` value directly after the `baseurl` key of its `SLE_BCI`
repository entry. -/
theorem default_bci_devel_repo_and_repoclosure (arch : String) (d : Bool) :
    ∃ cat, buildCatalog ⟨"15.3", none, arch, d⟩ = .ok cat ∧
      cat.BCI_DEVEL_REPO =
        "https://updates.suse.com/SUSE/Products/SLE-BCI/15-SP3/" ++ arch ++ "/product/" ∧
      cat.BASE_CONTAINER = .container (plainBASE_CONTAINER "15.3") ∧
      cat.GO_1_16_CONTAINER = .container (plainSp3Container "bci/golang:1.16") ∧
      cat.GO_1_17_CONTAINER = .container (plainSp3Container "bci/golang:1.17") ∧
      cat.OPENJDK_11_CONTAINER = .container (plainSp3Container "bci/openjdk:11") ∧
      cat.OPENJDK_DEVEL_11_CONTAINER = .container (plainSp3Container "bci/openjdk-devel:11") ∧
      cat.NODEJS_12_CONTAINER = .container (plainSp3Container "bci/nodejs:12") ∧
      cat.NODEJS_14_CONTAINER = .container (plainSp3Container "bci/nodejs:14") ∧
      cat.PYTHON36_CONTAINER = .container (plainSp3Container "bci/python:3.6") ∧
      cat.PYTHON39_CONTAINER = .container (plainSp3Container "bci/python:3.9") ∧
      cat.DOTNET_SDK_3_1_CONTAINER = .container (plainDotnetContainer 15 3 "bci/dotnet-sdk:3.1") ∧
      cat.DOTNET_SDK_5_0_CONTAINER = .container (plainDotnetContainer 15 3 "bci/dotnet-sdk:5.0") ∧
      cat.DOTNET_SDK_6_0_CONTAINER = .container (plainDotnetContainer 15 3 "bci/dotnet-sdk:6.0") ∧
      cat.DOTNET_ASPNET_3_1_CONTAINER = .container (plainDotnetContainer 15 3 "bci/dotnet-aspnet:3.1") ∧
      cat.DOTNET_ASPNET_5_0_CONTAINER = .container (plainDotnetContainer 15 3 "bci/dotnet-aspnet:5.0") ∧
      cat.DOTNET_ASPNET_6_0_CONTAINER = .container (plainDotnetContainer 15 3 "bci/dotnet-aspnet:6.0") ∧
      cat.DOTNET_RUNTIME_3_1_CONTAINER = .container (plainDotnetContainer 15 3 "bci/dotnet-runtime:3.1") ∧
      cat.DOTNET_RUNTIME_5_0_CONTAINER = .container (plainDotnetContainer 15 3 "bci/dotnet-runtime:5.0") ∧
      cat.DOTNET_RUNTIME_6_0_CONTAINER = .container (plainDotnetContainer 15 3 "bci/dotnet-runtime:6.0") ∧
      cat.INIT_CONTAINER = .container (plainINIT_CONTAINER d) ∧
      cat.MINIMAL_CONTAINER = mkMINIMAL_CONTAINER "15.3" ∧
      cat.MICRO_CONTAINER = mkMICRO_CONTAINER "15.3" ∧
      cat.REPOCLOSURE_CONTAINER.containerfile =
        repoclosureHead ++ cat.BCI_DEVEL_REPO ++ repoclosureTail ∧
      (∃ s, repoclosureHead = s ++ "baseurl=") ∧
      (∀ r : String, ∃ cat2, buildCatalog ⟨"15.3", some r, arch, d⟩ = .ok cat2 ∧
        cat2.REPOCLOSURE_CONTAINER.containerfile =
          repoclosureHead ++ r ++ repoclosureTail) :=
  ⟨_, rfl, rfl, rfl, rfl, rfl, rfl, rfl, rfl, rfl, rfl, rfl, rfl, rfl, rfl,
   rfl, rfl, rfl, rfl, rfl, rfl, rfl, rfl, rfl, rfl,
   ⟨"RUN dnf -y install \x27dnf-command(repoclosure)\x27\nRUN rm -f /etc/yum.repos.d/*repo\nRUN echo $\x27[SLE_BCI] \\n\\\nenabled=1 \\n\\\nname=\"SLE BCI\" \\n\\\nautorefresh=0 \\n\\\n", rfl⟩,
   fun _ => ⟨_, rfl, rfl⟩⟩

/-- C3 counterexample: for the bucket `"15.3"` (not an openssl-3 bucket)
with host FIPS mode false and target FIPS enforcement false, the expected
digest list is NOT the full digest list — the code appends `"gost"` for
exactly these buckets — refuting the claim that every bucket yields
`ALL_DIGESTS` under both flags false. -/
theorem digest_lookup_not_all_digests_at_15_3 :
    expected_digest_list "15.3" false false ≠ ALL_DIGESTS ∧
    expected_digest_list "15.3" false false = ALL_DIGESTS ++ ["gost"] := by
  decide

/-- C3 (amended): for every OS-version bucket in the openssl-3 set
(`"basalt"`, `"tumbleweed"`, `"15.6"`), the expected digest list under
(host FIPS = false, target FIPS = false) equals the full digest list
`ALL_DIGESTS` (buckets outside that set get `ALL_DIGESTS` plus `"gost"`);
and for every bucket in the reduced set with either FIPS flag true it
equals `FIPS_DIGESTS`, a strict subset of the full list containing only
FIPS-approved names. -/
theorem digest_lookup_fips_narrowing (v : String) (h t : Bool) :
    (v ∈ openssl3Buckets → h = false → t = false →
        expected_digest_list v h t = ALL_DIGESTS) ∧
    (v ∉ openssl3Buckets →
        expected_digest_list v false false = ALL_DIGESTS ++ ["gost"]) ∧
    (v ∈ openssl3Buckets → (h = true ∨ t = true) →
        expected_digest_list v h t = FIPS_DIGESTS) ∧
    (∀ dg ∈ FIPS_DIGESTS, dg ∈ ALL_DIGESTS) ∧
    (∃ dg, dg ∈ ALL_DIGESTS ∧ dg ∉ FIPS_DIGESTS) ∧
    FIPS_DIGESTS.all fipsApproved = true := by
  refine ⟨?_, ?_, ?_, by decide, ⟨"md5", by decide, by decide⟩, by decide⟩
  · intro hv hh ht
    subst hh; subst ht
    simp [expected_digest_list, hv]
  · intro hv
    simp [expected_digest_list, hv]
  · intro hv hflag
    have hor : h = true ∨ t = true := hflag
    simp [expected_digest_list, hv, hor]

/-- C3 witness: the amended theorem applied at the concrete bucket
`"tumbleweed"` with host FIPS enabled: the lookup returns exactly the
FIPS-approved subset. -/
theorem digest_lookup_fips_narrowing_witness :
    "tumbleweed" ∈ openssl3Buckets ∧
    expected_digest_list "tumbleweed" true false = FIPS_DIGESTS :=
  ⟨by decide,
   (digest_lookup_fips_narrowing "tumbleweed" true false).2.2.1 (by decide) (Or.inl rfl)⟩

/-- C4 counterexample: for the openssl-3 bucket `"tumbleweed"` with no FIPS
narrowing the expected digest list is exactly `ALL_DIGESTS` — no `"gost"`
is appended (and `"gost"` is not in `ALL_DIGESTS`) — while for the
non-openssl-3 bucket `"15.3"` the code does append `"gost"`: the claim has
the two bucket classes swapped. -/
theorem gost_appended_for_older_buckets_cx :
    expected_digest_list "tumbleweed" false false = ALL_DIGESTS ∧
    "gost" ∉ ALL_DIGESTS ∧
    expected_digest_list "15.3" false false = ALL_DIGESTS ++ ["gost"] := by
  decide

/-- C4 (amended): for OS-version buckets NOT in the openssl-3 set
(`"basalt"`, `"tumbleweed"`, `"15.6"`), the digest-set lookup appends
exactly one folklore/legacy digest name (`"gost"`) to the full digest
list; for the openssl-3 buckets no such name is appended. -/
theorem gost_append_amended (v : String) (h t : Bool) :
    (v ∉ openssl3Buckets →
        expected_digest_list v h t = ALL_DIGESTS ++ ["gost"] ∧
        (expected_digest_list v h t).count "gost" = 1) ∧
    (v ∈ openssl3Buckets → "gost" ∉ expected_digest_list v h t) := by
  constructor
  · intro hv
    have he : expected_digest_list v h t = ALL_DIGESTS ++ ["gost"] := by
      simp [expected_digest_list, hv]
    exact ⟨he, by rw [he]; decide⟩
  · intro hv
    by_cases hflag : h = true ∨ t = true
    · simp [expected_digest_list, hv, hflag]
      decide
    · simp [expected_digest_list, hv, hflag]
      decide

/-- C4 witness: the amended theorem applied at the concrete non-openssl-3
bucket `"15.3"`: exactly one `"gost"` is appended to the full list. -/
theorem gost_append_amended_witness :
    expected_digest_list "15.3" false false = ALL_DIGESTS ++ ["gost"] ∧
    (expected_digest_list "15.3" false false).count "gost" = 1 :=
  (gost_append_amended "15.3" false false).1 (by decide)

/-- C5: for every OS-version bucket (whatever string, covering the
rolling-release, FIPS-container, `15.6`, `15.4`/`15.5` and default tables)
and every architecture among x86_64, aarch64, ppc64le and s390x, the
size-limit lookup returns exactly one positive integer (a MiB ceiling);
looking up any architecture outside that set is a `KeyError` (`none`). -/
theorem size_limit_lookup_total_on_archs (v : String) (fips : Bool) (arch : String) :
    (arch ∈ sizeLimitArchs → ∃ n, getSizeLimit v fips arch = some n ∧ 0 < n) ∧
    (arch ∉ sizeLimitArchs → getSizeLimit v fips arch = none) := by
  constructor
  · intro hmem
    simp only [sizeLimitArchs, List.mem_cons, List.not_mem_nil, or_false] at hmem
    unfold getSizeLimit base_container_max_size
    rcases hmem with h | h | h | h <;> subst h <;> split_ifs <;> simp [dictLookup]
  · intro hmem
    simp only [sizeLimitArchs, List.mem_cons, List.not_mem_nil, or_false, not_or] at hmem
    obtain ⟨h1, h2, h3, h4⟩ := hmem
    unfold getSizeLimit base_container_max_size
    split_ifs <;> simp [dictLookup, h1, h2, h3, h4]

/-- C5 witness: the theorem applied at the concrete bucket `"15.3"` and
architecture `"x86_64"`: the lookup yields one positive limit. -/
theorem size_limit_lookup_total_on_archs_witness :
    ∃ n, getSizeLimit "15.3" false "x86_64" = some n ∧ 0 < n :=
  (size_limit_lookup_total_on_archs "15.3" false "x86_64").1 (by decide)

/-- On an architecture other than x86_64, no .NET descriptor is a member of
the with-package-manager group, whether or not the repository override is
set (helper for the membership theorems). -/
theorem dotnet_disjoint_zypper_aux (arch : String) (repo : Option String) (d : Bool)
    (harch : ¬ arch = "x86_64") :
    ∀ c ∈ (mkCatalog ⟨"15.3", repo, arch, d⟩ 15 3).DOTNET_CONTAINERS,
      c ∉ (mkCatalog ⟨"15.3", repo, arch, d⟩ 15 3).CONTAINERS_WITH_ZYPPER := by
  intro c hc hz
  cases repo with
  | none =>
      simp only [mkCatalog] at hc hz
      rw [if_neg harch, List.append_nil] at hz
      fin_cases hc <;> exact absurd hz (by cases d <;> decide)
  | some r =>
      simp only [mkCatalog] at hc hz
      rw [if_neg harch, List.append_nil] at hz
      fin_cases hc <;>
        (simp [replaceRepo, replaceRepoContainerfile, plainDotnetContainer,
           plainSp3Container, plainBASE_CONTAINER, plainINIT_CONTAINER, BASE_URL,
           DEFAULT_REGISTRY] at hz
         exact absurd hz (by decide))

/-- C8: the nine .NET descriptors are contained in the with-package-manager
group `CONTAINERS_WITH_ZYPPER` if and only if the detected host
architecture is x86_64; on every other architecture none of them is a
member of that group. -/
theorem dotnet_in_zypper_iff_x86_64 (arch : String) (d : Bool) :
    ∃ cat, buildCatalog ⟨"15.3", none, arch, d⟩ = .ok cat ∧
      ((∀ c ∈ cat.DOTNET_CONTAINERS, c ∈ cat.CONTAINERS_WITH_ZYPPER) ↔ arch = "x86_64") ∧
      ((∃ c ∈ cat.DOTNET_CONTAINERS, c ∈ cat.CONTAINERS_WITH_ZYPPER) ↔ arch = "x86_64") := by
  by_cases harch : arch = "x86_64"
  · subst harch
    cases d <;> exact ⟨_, rfl, by decide, by decide⟩
  · refine ⟨_, rfl, iff_of_false ?_ harch, iff_of_false ?_ harch⟩
    · intro hall
      have hmem : (.container (plainDotnetContainer 15 3 "bci/dotnet-sdk:3.1") : ImageDescriptor)
          ∈ (mkCatalog ⟨"15.3", none, arch, d⟩ 15 3).DOTNET_CONTAINERS :=
        List.mem_cons_self _ _
      exact dotnet_disjoint_zypper_aux arch none d harch _ hmem (hall _ hmem)
    · rintro ⟨c, hc, hz⟩
      exact dotnet_disjoint_zypper_aux arch none d harch c hc hz

/-- C8 witness: the membership equivalence evaluated at the concrete
architecture x86_64: all nine .NET descriptors are members of the
with-package-manager group. -/
theorem dotnet_in_zypper_iff_x86_64_witness :
    ∃ cat, buildCatalog ⟨"15.3", none, "x86_64", false⟩ = .ok cat ∧
      ((∀ c ∈ cat.DOTNET_CONTAINERS, c ∈ cat.CONTAINERS_WITH_ZYPPER) ↔ "x86_64" = "x86_64") ∧
      ((∃ c ∈ cat.DOTNET_CONTAINERS, c ∈ cat.CONTAINERS_WITH_ZYPPER) ↔ "x86_64" = "x86_64") :=
  dotnet_in_zypper_iff_x86_64 "x86_64" false

/-- C9 counterexample: requesting the catalog on the non-x86_64
architecture aarch64 does NOT make construction fail — it succeeds (while
the .NET skip mark is active), refuting the claim that construction fails
on an unsupported architecture for the .NET family. -/
theorem nonx86_construction_succeeds_cx :
    (∃ cat, buildCatalog ⟨"15.3", none, "aarch64", false⟩ = .ok cat) ∧
    DOTNET_ARCH_SKIP_MARK_active "aarch64" = true :=
  ⟨⟨_, rfl⟩, by decide⟩

/-- C9 (amended): when the catalog is built on an architecture other than
x86_64, construction succeeds; the .NET family is excluded from the
with-package-manager group and its pytest skip mark is active, so the
catalog stays consistent rather than failing. -/
theorem nonx86_dotnet_excluded (arch : String) (repo : Option String) (d : Bool)
    (harch : arch ≠ "x86_64") :
    ∃ cat, buildCatalog ⟨"15.3", repo, arch, d⟩ = .ok cat ∧
      DOTNET_ARCH_SKIP_MARK_active arch = true ∧
      ∀ c ∈ cat.DOTNET_CONTAINERS, c ∉ cat.CONTAINERS_WITH_ZYPPER := by
  refine ⟨_, rfl, ?_, ?_⟩
  · simpa [DOTNET_ARCH_SKIP_MARK_active, bne_iff_ne] using harch
  · exact dotnet_disjoint_zypper_aux arch repo d harch

/-- C9 witness: the amended theorem applied on the concrete architecture
aarch64 with no repository override. -/
theorem nonx86_dotnet_excluded_witness :
    ∃ cat, buildCatalog ⟨"15.3", none, "aarch64", false⟩ = .ok cat ∧
      DOTNET_ARCH_SKIP_MARK_active "aarch64" = true ∧
      ∀ c ∈ cat.DOTNET_CONTAINERS, c ∉ cat.CONTAINERS_WITH_ZYPPER :=
  nonx86_dotnet_excluded "aarch64" none false (by decide)

end BciTester
